import Mathlib

/-!
Verification of the Provident Fund vs Personal Investment comparison engine.

The Python source (`src/models.py`, `src/calculator.py`) is embedded
shallowly: Python `float` values become exact rationals `ℚ`, Python `int`
becomes `ℤ`, and each function below mirrors the control flow of the
source function of the same name.  Division follows the field convention
`x / 0 = 0` of `ℚ`, and `max`/`min` translate Python's `max`/`min`.
-/

/-- Embedding of the `ProvidentInputs` dataclass from `src/models.py`.
The dataclass performs no validation: any combination of field values is
a legal value of this structure, exactly as in the source. -/
structure ProvidentInputs where
  current_age : ℤ
  retirement_age : ℤ
  life_expectancy : ℤ
  annual_contribution : ℚ
  annual_cap : ℚ
  provident_expected_return : ℚ
  personal_expected_return : ℚ
  inflation_rate : ℚ
  provident_mgmt_fee : ℚ
  personal_mgmt_fee : ℚ
  capital_gains_tax : ℚ
  withdrawal_mode : String
deriving Repr, DecidableEq

/-- `ProvidentInputs.get_provident_net_return`: net return after fees,
`(1 + gross) * (1 - fee) - 1`. -/
def ProvidentInputs.get_provident_net_return (i : ProvidentInputs) : ℚ :=
  (1 + i.provident_expected_return) * (1 - i.provident_mgmt_fee) - 1

/-- `ProvidentInputs.get_personal_net_return`: net return after fees for
the personal account. -/
def ProvidentInputs.get_personal_net_return (i : ProvidentInputs) : ℚ :=
  (1 + i.personal_expected_return) * (1 - i.personal_mgmt_fee) - 1

/-- `ProvidentInputs.get_investment_years`: `max(0, retirement_age - current_age)`. -/
def ProvidentInputs.get_investment_years (i : ProvidentInputs) : ℤ :=
  max 0 (i.retirement_age - i.current_age)

/-- `ProvidentInputs.get_effective_contribution`:
`min(annual_contribution, annual_cap)`. -/
def ProvidentInputs.get_effective_contribution (i : ProvidentInputs) : ℚ :=
  min i.annual_contribution i.annual_cap

/-- `calculate_future_value` from `src/calculator.py`: future value of an
annuity, `PMT * (((1 + r)^n - 1) / r)`, with the source's two guards
(`years <= 0` and `annual_return == 0`). -/
def calculate_future_value (annual_contribution annual_return : ℚ) (years : ℤ) : ℚ :=
  if years ≤ 0 then 0
  else if annual_return = 0 then annual_contribution * (years : ℚ)
  else annual_contribution * (((1 + annual_return) ^ years.toNat - 1) / annual_return)

/-- `calculate_inflation_adjusted_contributions` from `src/calculator.py`:
the loop `for year in range(1, years + 1)` adds
`annual_contribution * (1 + inflation_rate) ^ (years - year)`; here the
loop index `year = i + 1` for `i` ranging over `Finset.range years.toNat`. -/
def calculate_inflation_adjusted_contributions
    (annual_contribution inflation_rate : ℚ) (years : ℤ) : ℚ :=
  if years ≤ 0 then 0
  else (Finset.range years.toNat).sum
    (fun i => annual_contribution * (1 + inflation_rate) ^ (years.toNat - (i + 1)))

/-- Embedding of the `TaxCalculation` dataclass from `src/models.py`. -/
structure TaxCalculation where
  gross_balance : ℚ
  total_contributions : ℚ
  inflation_adjusted_contributions : ℚ
  nominal_gain : ℚ
  real_gain : ℚ
  tax_amount : ℚ
  net_balance : ℚ
deriving Repr, DecidableEq

/-- `TaxCalculation.effective_tax_rate` property from `src/models.py`:
`0` when `gross_balance == 0`, otherwise `tax_amount / gross_balance`. -/
def TaxCalculation.effective_tax_rate (t : TaxCalculation) : ℚ :=
  if t.gross_balance = 0 then 0 else t.tax_amount / t.gross_balance

/-- `calculate_provident_tax` from `src/calculator.py`: tax is `0` for
annuity mode at age 60 or above, otherwise `capital_gains_tax * real_gain`
where `real_gain = max(0, gross_balance - inflation_adjusted_contributions)`. -/
def calculate_provident_tax
    (gross_balance total_contributions inflation_adjusted_contributions
     capital_gains_tax : ℚ) (withdrawal_mode : String) (age_at_withdrawal : ℤ) :
    TaxCalculation :=
  let nominal_gain := max 0 (gross_balance - total_contributions)
  let real_gain := max 0 (gross_balance - inflation_adjusted_contributions)
  let tax_amount :=
    if withdrawal_mode = "annuity" ∧ 60 ≤ age_at_withdrawal then 0
    else capital_gains_tax * real_gain
  { gross_balance := gross_balance
    total_contributions := total_contributions
    inflation_adjusted_contributions := inflation_adjusted_contributions
    nominal_gain := nominal_gain
    real_gain := real_gain
    tax_amount := tax_amount
    net_balance := gross_balance - tax_amount }

/-- `calculate_personal_tax` from `src/calculator.py`: tax on nominal
gains, `capital_gains_tax * max(0, gross_balance - total_contributions)`. -/
def calculate_personal_tax
    (gross_balance total_contributions capital_gains_tax : ℚ) : TaxCalculation :=
  let nominal_gain := max 0 (gross_balance - total_contributions)
  let tax_amount := capital_gains_tax * nominal_gain
  { gross_balance := gross_balance
    total_contributions := total_contributions
    inflation_adjusted_contributions := total_contributions
    nominal_gain := nominal_gain
    real_gain := nominal_gain
    tax_amount := tax_amount
    net_balance := gross_balance - tax_amount }

/-- Embedding of the `AgeComparisonResult` dataclass from `src/models.py`. -/
structure AgeComparisonResult where
  starting_age : ℤ
  retirement_age : ℤ
  investment_years : ℤ
  provident_gross : ℚ
  provident_contributions : ℚ
  provident_tax : ℚ
  provident_net : ℚ
  personal_gross : ℚ
  personal_contributions : ℚ
  personal_tax : ℚ
  personal_net : ℚ
  withdrawal_mode : String
deriving Repr, DecidableEq

/-- `AgeComparisonResult.difference` property: `provident_net - personal_net`. -/
def AgeComparisonResult.difference (r : AgeComparisonResult) : ℚ :=
  r.provident_net - r.personal_net

/-- `AgeComparisonResult.provident_wins` property: `difference > 0`. -/
def AgeComparisonResult.provident_wins (r : AgeComparisonResult) : Bool :=
  decide (0 < r.difference)

/-- `calculate_comparison_for_starting_age` from `src/calculator.py`:
returns the all-zero result when `investment_years <= 0`; otherwise runs
the closed-form future value for both accounts (crediting the full
`annual_contribution` to both, without the cap, as the source does) and
applies the two tax rules. -/
def calculate_comparison_for_starting_age
    (starting_age : ℤ) (inputs : ProvidentInputs) : AgeComparisonResult :=
  let investment_years := inputs.retirement_age - starting_age
  if investment_years ≤ 0 then
    { starting_age := starting_age
      retirement_age := inputs.retirement_age
      investment_years := 0
      provident_gross := 0
      provident_contributions := 0
      provident_tax := 0
      provident_net := 0
      personal_gross := 0
      personal_contributions := 0
      personal_tax := 0
      personal_net := 0
      withdrawal_mode := inputs.withdrawal_mode }
  else
    let provident_contribution := inputs.annual_contribution
    let personal_contribution := inputs.annual_contribution
    let provident_net_return := inputs.get_provident_net_return
    let personal_net_return := inputs.get_personal_net_return
    let provident_gross :=
      calculate_future_value provident_contribution provident_net_return investment_years
    let personal_gross :=
      calculate_future_value personal_contribution personal_net_return investment_years
    let provident_contributions := provident_contribution * (investment_years : ℚ)
    let personal_contributions := personal_contribution * (investment_years : ℚ)
    let provident_inflation_adjusted :=
      calculate_inflation_adjusted_contributions
        provident_contribution inputs.inflation_rate investment_years
    let provident_tax_calc :=
      calculate_provident_tax provident_gross provident_contributions
        provident_inflation_adjusted inputs.capital_gains_tax
        inputs.withdrawal_mode inputs.retirement_age
    let personal_tax_calc :=
      calculate_personal_tax personal_gross personal_contributions
        inputs.capital_gains_tax
    { starting_age := starting_age
      retirement_age := inputs.retirement_age
      investment_years := investment_years
      provident_gross := provident_gross
      provident_contributions := provident_contributions
      provident_tax := provident_tax_calc.tax_amount
      provident_net := provident_tax_calc.net_balance
      personal_gross := personal_gross
      personal_contributions := personal_contributions
      personal_tax := personal_tax_calc.tax_amount
      personal_net := personal_tax_calc.net_balance
      withdrawal_mode := inputs.withdrawal_mode }

/-- Recursive worker for `find_crossover_age`, mirroring
`for age in range(min_age, max_age + 1): if result.provident_wins: return age`.
The fuel argument counts the remaining ages in the scanned range. -/
def find_crossover_go (inputs : ProvidentInputs) : ℤ → ℕ → Option ℤ
  | _, 0 => none
  | age, fuel + 1 =>
    if (calculate_comparison_for_starting_age age inputs).provident_wins
    then some age
    else find_crossover_go inputs (age + 1) fuel

/-- `find_crossover_age` from `src/calculator.py`: scan starting ages
ascending from `min_age` to `max_age` inclusive and return the first age
whose comparison result has `provident_wins`, or `none`. -/
def find_crossover_age (inputs : ProvidentInputs) (min_age max_age : ℤ) : Option ℤ :=
  find_crossover_go inputs min_age (max_age + 1 - min_age).toNat

/-- `calculate_monthly_withdrawal` from `src/calculator.py`: the amortizing
annuity payment `balance * (r / (1 - (1 + r)^(-n)))` with `r` the monthly
rate `annual / 12` and `n = withdrawal_years * 12`, with the source's
guards for non-positive balance or years and for a zero monthly rate. -/
def calculate_monthly_withdrawal
    (balance : ℚ) (withdrawal_years : ℤ) (annual_return_during_withdrawal : ℚ) : ℚ :=
  if withdrawal_years ≤ 0 ∨ balance ≤ 0 then 0
  else
    let monthly_rate := annual_return_during_withdrawal / 12
    let total_months := withdrawal_years * 12
    if monthly_rate = 0 then balance / (total_months : ℚ)
    else balance * (monthly_rate / (1 - (1 + monthly_rate) ^ (-total_months)))

/-- Embedding of the `MonthlyWithdrawalResult` dataclass from `src/models.py`. -/
structure MonthlyWithdrawalResult where
  provident_balance : ℚ
  provident_contributions : ℚ
  provident_gross_monthly : ℚ
  provident_net_monthly : ℚ
  personal_balance : ℚ
  personal_contributions : ℚ
  personal_gross_monthly : ℚ
  personal_net_monthly : ℚ
  personal_tax_per_month : ℚ
  withdrawal_years : ℤ
  withdrawal_return : ℚ
deriving Repr, DecidableEq

/-- `calculate_monthly_withdrawal_comparison` from `src/calculator.py`:
runs the comparison at the current age, fixes a 3% payout-phase return,
pays the provident annuity untaxed, and taxes the gain portion of each
personal-account withdrawal using the balance's gain ratio (set to `0`
unless the personal balance is positive). -/
def calculate_monthly_withdrawal_comparison
    (inputs : ProvidentInputs) : MonthlyWithdrawalResult :=
  let result := calculate_comparison_for_starting_age inputs.current_age inputs
  let wy := inputs.life_expectancy - inputs.retirement_age
  let withdrawal_years := if wy ≤ 0 then 1 else wy
  let withdrawal_return : ℚ := 3 / 100
  let provident_gross_monthly :=
    calculate_monthly_withdrawal result.provident_gross withdrawal_years withdrawal_return
  let personal_gross_monthly :=
    calculate_monthly_withdrawal result.personal_gross withdrawal_years withdrawal_return
  let provident_net_monthly := provident_gross_monthly
  let gain_ratio :=
    if 0 < result.personal_gross
    then (result.personal_gross - result.personal_contributions) / result.personal_gross
    else 0
  let taxable_per_month := personal_gross_monthly * gain_ratio
  let tax_per_month := taxable_per_month * inputs.capital_gains_tax
  let personal_net_monthly := personal_gross_monthly - tax_per_month
  { provident_balance := result.provident_gross
    provident_contributions := result.provident_contributions
    provident_gross_monthly := provident_gross_monthly
    provident_net_monthly := provident_net_monthly
    personal_balance := result.personal_gross
    personal_contributions := result.personal_contributions
    personal_gross_monthly := personal_gross_monthly
    personal_net_monthly := personal_net_monthly
    personal_tax_per_month := tax_per_month
    withdrawal_years := withdrawal_years
    withdrawal_return := withdrawal_return }

/-- A concrete set of inputs used to instantiate theorems with hypotheses. -/
def sampleInputs : ProvidentInputs :=
  ⟨30, 60, 90, 10000, 83641, 7/100, 8/100, 1/40, 3/500, 1/1000, 1/4, "annuity"⟩

/-- The future value of an annuity equals the contribution times the
geometric sum of the growth factor, for a positive horizon; this covers
both branches of `calculate_future_value`. -/
lemma fv_eq_geom_sum (c R : ℚ) (n : ℤ) (hn : 0 < n) :
    calculate_future_value c R n =
      c * (Finset.range n.toNat).sum (fun k => (1 + R) ^ k) := by
  unfold calculate_future_value
  rw [if_neg (by omega)]
  by_cases hR : R = 0
  · subst hR
    rw [if_pos rfl]
    have hcast : ((n.toNat : ℕ) : ℚ) = (n : ℚ) := by
      exact_mod_cast Int.toNat_of_nonneg hn.le
    simp only [add_zero, one_pow, Finset.sum_const, Finset.card_range, nsmul_eq_mul,
      mul_one, hcast]
  · rw [if_neg hR, geom_sum_eq (by intro h; exact hR (by linarith [congrArg (fun x => x - 1) h])) n.toNat]
    have h1 : (1 : ℚ) + R - 1 = R := by ring
    rw [h1]

/-- Geometric sums with nonnegative base are monotone in the base. -/
lemma geom_sum_mono_base (x y : ℚ) (hx : 0 ≤ x) (hxy : x ≤ y) (m : ℕ) :
    (Finset.range m).sum (fun k => x ^ k) ≤ (Finset.range m).sum (fun k => y ^ k) :=
  Finset.sum_le_sum (fun i _ => pow_le_pow_left₀ hx hxy i)

/-- Claim C1: `calculate_provident_tax` returns `tax_amount = 0` exactly
when the withdrawal mode is `"annuity"` and the withdrawal age is at
least 60; otherwise `tax_amount = capital_gains_tax * max(0, gross -
inflation_adjusted_contributions)`; and the tax is never negative when
the tax rate is nonnegative. -/
theorem provident_tax_rule_and_nonneg
    (gross total infl rate : ℚ) (mode : String) (age : ℤ) :
    ((calculate_provident_tax gross total infl rate mode age).tax_amount =
      if mode = "annuity" ∧ 60 ≤ age then 0 else rate * max 0 (gross - infl))
    ∧ (0 ≤ rate →
        0 ≤ (calculate_provident_tax gross total infl rate mode age).tax_amount) := by
  constructor
  · rfl
  · intro hrate
    show (0 : ℚ) ≤ if mode = "annuity" ∧ 60 ≤ age then 0 else rate * max 0 (gross - infl)
    split
    · exact le_refl 0
    · exact mul_nonneg hrate (le_max_left 0 _)

/-- Witness for C1 at a concrete lump-sum input with rate 1/4. -/
theorem provident_tax_rule_and_nonneg_witness :
    (0 : ℚ) ≤ 1/4 ∧
    0 ≤ (calculate_provident_tax 200 100 100 (1/4) "lump_sum" 65).tax_amount :=
  ⟨by norm_num,
   (provident_tax_rule_and_nonneg 200 100 100 (1/4) "lump_sum" 65).2 (by norm_num)⟩

/-- Claim C7 counterexample: for the tax calculation produced by
`calculate_provident_tax 200 100 100 (1/4) "lump_sum" 65` the nominal
gain is positive (it equals 100) yet the effective tax rate is
`tax_amount / gross_balance = 1/8`, not `tax_amount / nominal_gain = 1/4`. -/
theorem effective_tax_rate_not_over_nominal_gain :
    0 < (calculate_provident_tax 200 100 100 (1/4) "lump_sum" 65).nominal_gain ∧
    (calculate_provident_tax 200 100 100 (1/4) "lump_sum" 65).effective_tax_rate ≠
      (calculate_provident_tax 200 100 100 (1/4) "lump_sum" 65).tax_amount /
        (calculate_provident_tax 200 100 100 (1/4) "lump_sum" 65).nominal_gain := by
  have hs : ¬ ("lump_sum" = "annuity" ∧ (60 : ℤ) ≤ 65) := by simp
  have ht : calculate_provident_tax 200 100 100 (1/4) "lump_sum" 65 =
      ⟨200, 100, 100, 100, 100, 25, 175⟩ := by
    unfold calculate_provident_tax
    dsimp only
    rw [if_neg hs]
    have hmax : (0 : ℚ) ⊔ (200 - 100) = 100 := by
      rw [max_eq_right (by norm_num : (0 : ℚ) ≤ 200 - 100)]
      norm_num
    rw [hmax]
    norm_num
  constructor
  · rw [ht]
    norm_num
  · rw [ht]
    unfold TaxCalculation.effective_tax_rate
    norm_num

/-- Claim C7 (amended): the effective tax rate of a `TaxCalculation` is
`tax_amount / gross_balance` when `gross_balance ≠ 0`, and `0` when
`gross_balance = 0`, so no division by zero occurs. -/
theorem effective_tax_rate_spec (t : TaxCalculation) :
    (t.gross_balance = 0 → t.effective_tax_rate = 0)
    ∧ (t.gross_balance ≠ 0 →
        t.effective_tax_rate = t.tax_amount / t.gross_balance) := by
  constructor
  · intro h
    unfold TaxCalculation.effective_tax_rate
    rw [if_pos h]
  · intro h
    unfold TaxCalculation.effective_tax_rate
    rw [if_neg h]

/-- Witness for the amended C7 at a concrete tax calculation. -/
theorem effective_tax_rate_spec_witness :
    (calculate_provident_tax 200 100 100 (1/4) "lump_sum" 65).effective_tax_rate =
      (calculate_provident_tax 200 100 100 (1/4) "lump_sum" 65).tax_amount /
        (calculate_provident_tax 200 100 100 (1/4) "lump_sum" 65).gross_balance :=
  (effective_tax_rate_spec _).2 (by norm_num [calculate_provident_tax])

/-- Claim C2: for any starting age strictly below the retirement age,
the gross balance of each account computed by
`calculate_comparison_for_starting_age` is the closed-form annuity
future value at that account's net-of-fee return, degrading to
`contribution * years` when the net return is zero. -/
theorem comparison_gross_closed_form (inputs : ProvidentInputs) (a : ℤ)
    (h : a < inputs.retirement_age) :
    ((calculate_comparison_for_starting_age a inputs).provident_gross =
      if inputs.get_provident_net_return = 0
      then inputs.annual_contribution * ((inputs.retirement_age - a : ℤ) : ℚ)
      else inputs.annual_contribution *
        (((1 + inputs.get_provident_net_return) ^ (inputs.retirement_age - a).toNat - 1) /
          inputs.get_provident_net_return))
    ∧ ((calculate_comparison_for_starting_age a inputs).personal_gross =
      if inputs.get_personal_net_return = 0
      then inputs.annual_contribution * ((inputs.retirement_age - a : ℤ) : ℚ)
      else inputs.annual_contribution *
        (((1 + inputs.get_personal_net_return) ^ (inputs.retirement_age - a).toNat - 1) /
          inputs.get_personal_net_return)) := by
  have hy : ¬ (inputs.retirement_age - a ≤ 0) := by omega
  unfold calculate_comparison_for_starting_age calculate_future_value
  rw [if_neg hy]
  constructor
  · dsimp only
    rw [if_neg hy]
  · dsimp only
    rw [if_neg hy]

/-- Witness for C2 at the sample inputs and starting age 59. -/
theorem comparison_gross_closed_form_witness :
    (calculate_comparison_for_starting_age 59 sampleInputs).provident_gross =
      (if sampleInputs.get_provident_net_return = 0
       then sampleInputs.annual_contribution * ((sampleInputs.retirement_age - 59 : ℤ) : ℚ)
       else sampleInputs.annual_contribution *
         (((1 + sampleInputs.get_provident_net_return) ^
             (sampleInputs.retirement_age - 59).toNat - 1) /
           sampleInputs.get_provident_net_return)) :=
  (comparison_gross_closed_form sampleInputs 59 (by norm_num [sampleInputs])).1

/-- Claim C10: over exact rational arithmetic the forward-inflation loop
`calculate_inflation_adjusted_contributions c r n` coincides with the
closed-form annuity future value `calculate_future_value c r n` for every
contribution `c`, rate `r > -1`, and year count `n`. -/
theorem inflation_adjusted_eq_future_value (c r : ℚ) (n : ℤ) (h : -1 < r) :
    calculate_inflation_adjusted_contributions c r n = calculate_future_value c r n := by
  by_cases hn : n ≤ 0
  · unfold calculate_inflation_adjusted_contributions calculate_future_value
    rw [if_pos hn, if_pos hn]
  · push_neg at hn
    rw [fv_eq_geom_sum c r n hn]
    unfold calculate_inflation_adjusted_contributions
    rw [if_neg (by omega), Finset.mul_sum]
    have hsub : ∀ i : ℕ, n.toNat - (i + 1) = n.toNat - 1 - i := fun i => by omega
    calc (Finset.range n.toNat).sum (fun i => c * (1 + r) ^ (n.toNat - (i + 1)))
        = (Finset.range n.toNat).sum (fun i => c * (1 + r) ^ (n.toNat - 1 - i)) := by
          refine Finset.sum_congr rfl (fun i _ => ?_)
          rw [hsub i]
      _ = (Finset.range n.toNat).sum (fun i => c * (1 + r) ^ i) :=
          Finset.sum_range_reflect (fun i => c * (1 + r) ^ i) n.toNat

/-- Witness for C10 with contribution 1, rate 1, and 2 years. -/
theorem inflation_adjusted_eq_future_value_witness :
    (-1 : ℚ) < 1 ∧
    calculate_inflation_adjusted_contributions 1 1 2 = calculate_future_value 1 1 2 :=
  ⟨by norm_num, inflation_adjusted_eq_future_value 1 1 2 (by norm_num)⟩

/-- Claim C9: with the contribution and gross return held fixed (and the
contribution nonnegative, the gross return above -100%), a higher
management fee in `[0, 1]` never yields a larger gross balance from
`calculate_future_value` at the corresponding net-of-fee return. -/
theorem future_value_fee_monotone (A B : ProvidentInputs) (n : ℤ)
    (hcontrib : A.annual_contribution = B.annual_contribution)
    (hret : A.provident_expected_return = B.provident_expected_return)
    (hc : 0 ≤ A.annual_contribution)
    (hg : -1 < A.provident_expected_return)
    (hf0 : 0 ≤ A.provident_mgmt_fee)
    (hff : A.provident_mgmt_fee < B.provident_mgmt_fee)
    (hf1 : B.provident_mgmt_fee ≤ 1) :
    calculate_future_value B.annual_contribution B.get_provident_net_return n ≤
      calculate_future_value A.annual_contribution A.get_provident_net_return n := by
  by_cases hn : n ≤ 0
  · unfold calculate_future_value
    rw [if_pos hn, if_pos hn]
  · push_neg at hn
    rw [fv_eq_geom_sum _ _ n hn, fv_eq_geom_sum _ _ n hn, ← hcontrib]
    apply mul_le_mul_of_nonneg_left _ hc
    apply geom_sum_mono_base
    · unfold ProvidentInputs.get_provident_net_return
      have hb : (0 : ℚ) ≤ (1 + B.provident_expected_return) * (1 - B.provident_mgmt_fee) := by
        apply mul_nonneg
        · rw [← hret]
          linarith
        · linarith
      linarith
    · unfold ProvidentInputs.get_provident_net_return
      rw [← hret]
      have hmul : (1 + A.provident_expected_return) * (1 - B.provident_mgmt_fee) ≤
          (1 + A.provident_expected_return) * (1 - A.provident_mgmt_fee) :=
        mul_le_mul_of_nonneg_left (by linarith) (by linarith)
      linarith

/-- A copy of the sample inputs with the provident management fee raised
to 1/2, used to instantiate the fee-monotonicity theorem. -/
def sampleInputsHighFee : ProvidentInputs :=
  ⟨30, 60, 90, 10000, 83641, 7/100, 8/100, 1/40, 1/2, 1/1000, 1/4, "annuity"⟩

/-- Witness for C9 comparing fees 3/500 and 1/2 over 30 years. -/
theorem future_value_fee_monotone_witness :
    calculate_future_value sampleInputsHighFee.annual_contribution
        sampleInputsHighFee.get_provident_net_return 30 ≤
      calculate_future_value sampleInputs.annual_contribution
        sampleInputs.get_provident_net_return 30 :=
  future_value_fee_monotone sampleInputs sampleInputsHighFee 30 rfl rfl
    (by norm_num [sampleInputs]) (by norm_num [sampleInputs])
    (by norm_num [sampleInputs]) (by norm_num [sampleInputs, sampleInputsHighFee])
    (by norm_num [sampleInputsHighFee])

/-- Claim C5: `calculate_monthly_withdrawal` returns 0 when the balance
or the horizon is non-positive; otherwise, with monthly rate `r / 12` and
`n = 12 * withdrawal_years` months, it returns `balance / n` for a zero
rate and the amortizing-annuity payment
`balance * ((r/12) / (1 - (1 + r/12)^(-n)))` for a nonzero rate. -/
theorem monthly_withdrawal_formula (balance : ℚ) (years : ℤ) (r : ℚ) :
    (balance ≤ 0 ∨ years ≤ 0 → calculate_monthly_withdrawal balance years r = 0)
    ∧ (0 < balance → 0 < years → r = 0 →
        calculate_monthly_withdrawal balance years r = balance / ((12 * years : ℤ) : ℚ))
    ∧ (0 < balance → 0 < years → r ≠ 0 →
        calculate_monthly_withdrawal balance years r =
          balance * ((r / 12) / (1 - (1 + r / 12) ^ (-(12 * years))))) := by
  refine ⟨?_, ?_, ?_⟩
  · intro h
    unfold calculate_monthly_withdrawal
    rw [if_pos (Or.symm h)]
  · intro hb hy hr
    subst hr
    unfold calculate_monthly_withdrawal
    rw [if_neg (by push_neg; exact ⟨hy, hb⟩)]
    dsimp only
    rw [if_pos (by norm_num), Int.mul_comm years 12]
  · intro hb hy hr
    unfold calculate_monthly_withdrawal
    rw [if_neg (by push_neg; exact ⟨hy, hb⟩)]
    dsimp only
    rw [if_neg (div_ne_zero hr (by norm_num)), Int.mul_comm years 12]

/-- Witness for C5 at balance 1200, one year, zero payout return. -/
theorem monthly_withdrawal_formula_witness :
    calculate_monthly_withdrawal 1200 1 0 = 1200 / ((12 * 1 : ℤ) : ℚ) :=
  (monthly_withdrawal_formula 1200 1 0).2.1 (by norm_num) (by norm_num) rfl

/-- Characterization of the crossover scan worker: starting at `start`
with `fuel` remaining ages, it returns `some a` exactly when `a` is the
first age in the window `[start, start + fuel)` whose comparison result
has `provident_wins`. -/
lemma find_crossover_go_some (inputs : ProvidentInputs) :
    ∀ (fuel : ℕ) (start a : ℤ),
      (find_crossover_go inputs start fuel = some a ↔
        (start ≤ a ∧ a < start + fuel ∧
          (calculate_comparison_for_starting_age a inputs).provident_wins = true ∧
          ∀ b, start ≤ b → b < a →
            (calculate_comparison_for_starting_age b inputs).provident_wins = false)) := by
  intro fuel
  induction fuel with
  | zero =>
    intro start a
    constructor
    · intro h
      exact absurd h (by simp [find_crossover_go])
    · rintro ⟨h1, h2, -, -⟩
      exact absurd h2 (by push_cast; omega)
  | succ fuel ih =>
    intro start a
    unfold find_crossover_go
    by_cases hw : (calculate_comparison_for_starting_age start inputs).provident_wins = true
    · rw [if_pos hw]
      constructor
      · intro h
        have ha : start = a := by injection h
        subst ha
        refine ⟨le_refl start, by push_cast; omega, hw, fun b hb1 hb2 => ?_⟩
        exact absurd (lt_of_le_of_lt hb1 hb2) (lt_irrefl start)
      · rintro ⟨h1, h2, h3, h4⟩
        by_cases ha : a = start
        · rw [ha]
        · have hfalse := h4 start (le_refl start) (by omega)
          rw [hw] at hfalse
          exact absurd hfalse (by simp)
    · have hwf : (calculate_comparison_for_starting_age start inputs).provident_wins = false :=
        Bool.not_eq_true _ ▸ Bool.of_not_eq_true hw
      rw [if_neg hw, ih (start + 1) a]
      constructor
      · rintro ⟨h1, h2, h3, h4⟩
        refine ⟨by omega, by push_cast at h2 ⊢; omega, h3, fun b hb1 hb2 => ?_⟩
        by_cases hbs : b = start
        · rw [hbs]
          exact hwf
        · exact h4 b (by omega) hb2
      · rintro ⟨h1, h2, h3, h4⟩
        have has : a ≠ start := by
          intro he
          rw [he, hwf] at h3
          exact absurd h3 (by simp)
        refine ⟨by omega, by push_cast at h2 ⊢; omega, h3, fun b hb1 hb2 => ?_⟩
        exact h4 b (by omega) hb2

/-- The crossover scan worker returns `none` exactly when no age in the
scanned window wins. -/
lemma find_crossover_go_none (inputs : ProvidentInputs) :
    ∀ (fuel : ℕ) (start : ℤ),
      (find_crossover_go inputs start fuel = none ↔
        ∀ b, start ≤ b → b < start + fuel →
          (calculate_comparison_for_starting_age b inputs).provident_wins = false) := by
  intro fuel
  induction fuel with
  | zero =>
    intro start
    constructor
    · intro _ b hb1 hb2
      exact absurd hb2 (by push_cast; omega)
    · intro _
      rfl
  | succ fuel ih =>
    intro start
    unfold find_crossover_go
    by_cases hw : (calculate_comparison_for_starting_age start inputs).provident_wins = true
    · rw [if_pos hw]
      constructor
      · intro h
        exact absurd h (by simp)
      · intro h
        have hfalse := h start (le_refl start) (by push_cast; omega)
        rw [hw] at hfalse
        exact absurd hfalse (by simp)
    · have hwf : (calculate_comparison_for_starting_age start inputs).provident_wins = false :=
        Bool.not_eq_true _ ▸ Bool.of_not_eq_true hw
      rw [if_neg hw, ih (start + 1)]
      constructor
      · intro h b hb1 hb2
        by_cases hbs : b = start
        · rw [hbs]
          exact hwf
        · exact h b (by omega) (by push_cast at hb2 ⊢; omega)
      · intro h b hb1 hb2
        exact h b (by omega) (by push_cast at hb2 ⊢; omega)

/-- Claim C4: `find_crossover_age` returns `some a` exactly when `a` is
the smallest age in `[min_age, max_age]` whose comparison result has
`provident_wins`, and `none` exactly when no age in the range wins. -/
theorem find_crossover_age_first_win (inputs : ProvidentInputs) (min_age max_age a : ℤ) :
    (find_crossover_age inputs min_age max_age = some a ↔
      (min_age ≤ a ∧ a ≤ max_age ∧
        (calculate_comparison_for_starting_age a inputs).provident_wins = true ∧
        ∀ b, min_age ≤ b → b < a →
          (calculate_comparison_for_starting_age b inputs).provident_wins = false))
    ∧ (find_crossover_age inputs min_age max_age = none ↔
      ∀ b, min_age ≤ b → b ≤ max_age →
        (calculate_comparison_for_starting_age b inputs).provident_wins = false) := by
  unfold find_crossover_age
  constructor
  · rw [find_crossover_go_some inputs _ min_age a]
    constructor
    · rintro ⟨h1, h2, h3, h4⟩
      exact ⟨h1, by omega, h3, h4⟩
    · rintro ⟨h1, h2, h3, h4⟩
      exact ⟨h1, by omega, h3, h4⟩
  · rw [find_crossover_go_none inputs _ min_age]
    constructor
    · intro h b hb1 hb2
      exact h b hb1 (by omega)
    · intro h b hb1 hb2
      exact h b hb1 (by omega)

/-- A non-positive balance yields a zero monthly withdrawal, by the
source's guard. -/
lemma calculate_monthly_withdrawal_nonpos (balance : ℚ) (years : ℤ) (r : ℚ)
    (hb : balance ≤ 0) : calculate_monthly_withdrawal balance years r = 0 := by
  unfold calculate_monthly_withdrawal
  rw [if_pos (Or.inr hb)]

/-- The tax on the gain portion computed with the source's gain ratio
(zero unless the balance is positive) agrees with the claim's gain ratio
(zero exactly when the balance is zero), provided a non-positive balance
forces a zero gross monthly payment. -/
lemma gain_ratio_tax_agree (g c gm ct : ℚ) (hgm : g ≤ 0 → gm = 0) :
    gm * (if 0 < g then (g - c) / g else 0) * ct =
      gm * (if g = 0 then 0 else (g - c) / g) * ct := by
  rcases lt_trichotomy g 0 with h | h | h
  · rw [if_neg (by linarith), hgm h.le]
    ring
  · rw [h, if_neg (lt_irrefl 0), if_pos rfl]
  · rw [if_pos h, if_neg (ne_of_gt h)]

/-- Claim C6: in every result of `calculate_monthly_withdrawal_comparison`
the personal tax per month is `personal_gross_monthly * gain_ratio *
capital_gains_tax` with `gain_ratio = (balance - contributions) / balance`
and `0` when the balance is zero, and the personal net monthly payment is
the gross payment minus that tax. -/
theorem monthly_comparison_personal_tax (inputs : ProvidentInputs) :
    ((calculate_monthly_withdrawal_comparison inputs).personal_tax_per_month =
      (calculate_monthly_withdrawal_comparison inputs).personal_gross_monthly *
        (if (calculate_monthly_withdrawal_comparison inputs).personal_balance = 0 then 0
         else ((calculate_monthly_withdrawal_comparison inputs).personal_balance -
            (calculate_monthly_withdrawal_comparison inputs).personal_contributions) /
          (calculate_monthly_withdrawal_comparison inputs).personal_balance) *
        inputs.capital_gains_tax)
    ∧ ((calculate_monthly_withdrawal_comparison inputs).personal_net_monthly =
      (calculate_monthly_withdrawal_comparison inputs).personal_gross_monthly -
        (calculate_monthly_withdrawal_comparison inputs).personal_tax_per_month) := by
  unfold calculate_monthly_withdrawal_comparison
  dsimp only
  constructor
  · exact gain_ratio_tax_agree _ _ _ _
      (fun h => calculate_monthly_withdrawal_nonpos _ _ _ h)
  · rfl

/-- Inputs whose desired annual contribution of 100000 exceeds the annual
cap of 83641, starting one year before retirement. -/
def capInputs : ProvidentInputs :=
  ⟨59, 60, 90, 100000, 83641, 7/100, 8/100, 1/40, 3/500, 1/1000, 1/4, "annuity"⟩

/-- Claim C3 counterexample: with `capInputs` the desired contribution
100000 exceeds the annual cap 83641, yet the single simulated year of
`calculate_comparison_for_starting_age` credits the full 100000 to the
provident account: the credited contribution exceeds `annual_cap`, so the
cap is not enforced (and the result carries no cap-binding flag at all). -/
theorem contribution_cap_not_enforced :
    capInputs.annual_cap < capInputs.annual_contribution ∧
    (calculate_comparison_for_starting_age 59 capInputs).investment_years = 1 ∧
    (calculate_comparison_for_starting_age 59 capInputs).provident_contributions = 100000 ∧
    capInputs.annual_cap <
      (calculate_comparison_for_starting_age 59 capInputs).provident_contributions := by
  refine ⟨by norm_num [capInputs], ?_, ?_, ?_⟩
  · norm_num [calculate_comparison_for_starting_age, capInputs]
  · norm_num [calculate_comparison_for_starting_age, capInputs]
  · norm_num [calculate_comparison_for_starting_age, capInputs]

/-- Claim C3 (amended): `get_effective_contribution` clips the desired
contribution to the cap, but `calculate_comparison_for_starting_age`
does not use it: both accounts are credited the full, uncapped
`annual_contribution` each simulated year. -/
theorem effective_contribution_capped_but_unused (inputs : ProvidentInputs) :
    inputs.get_effective_contribution ≤ inputs.annual_cap
    ∧ ∀ a : ℤ, a < inputs.retirement_age →
      ((calculate_comparison_for_starting_age a inputs).provident_contributions =
        inputs.annual_contribution * ((inputs.retirement_age - a : ℤ) : ℚ)
      ∧ (calculate_comparison_for_starting_age a inputs).personal_contributions =
        inputs.annual_contribution * ((inputs.retirement_age - a : ℤ) : ℚ)) := by
  constructor
  · exact min_le_right _ _
  · intro a ha
    have hy : ¬ (inputs.retirement_age - a ≤ 0) := by omega
    unfold calculate_comparison_for_starting_age
    rw [if_neg hy]
    exact ⟨rfl, rfl⟩

/-- Witness for the amended C3 at `capInputs` and starting age 59. -/
theorem effective_contribution_capped_but_unused_witness :
    capInputs.get_effective_contribution ≤ capInputs.annual_cap ∧
    (calculate_comparison_for_starting_age 59 capInputs).provident_contributions =
      capInputs.annual_contribution * ((capInputs.retirement_age - 59 : ℤ) : ℚ) :=
  ⟨(effective_contribution_capped_but_unused capInputs).1,
   ((effective_contribution_capped_but_unused capInputs).2 59
     (by norm_num [capInputs])).1⟩

/-- Inputs with a negative annual contribution, which per the claim
should be rejected at construction time. -/
def negativeContributionInputs : ProvidentInputs :=
  ⟨30, 60, 90, -1000, 83641, 0, 0, 0, 0, 0, 1/4, "lump_sum"⟩

/-- Claim C8 counterexample: `ProvidentInputs` performs no validation.
The inputs with a negative monetary field construct successfully and
reach the engine, which computes a result crediting -1000 per year for
30 years; nothing fails fast. -/
theorem invalid_inputs_reach_engine :
    negativeContributionInputs.annual_contribution < 0 ∧
    (calculate_comparison_for_starting_age 30
      negativeContributionInputs).provident_contributions = -30000 ∧
    (calculate_comparison_for_starting_age 30
      negativeContributionInputs).investment_years = 30 := by
  refine ⟨by norm_num [negativeContributionInputs], ?_, ?_⟩
  · norm_num [calculate_comparison_for_starting_age, negativeContributionInputs]
  · norm_num [calculate_comparison_for_starting_age, negativeContributionInputs]

/-- Claim C8 (amended): the inputs constructor accepts any field values
(no invariant is checked at construction), and the engine handles them:
in particular a starting age at or past the retirement age yields the
defined all-zero comparison result rather than an error. -/
theorem inputs_not_validated
    (ca ra lifeExp : ℤ) (ac cap pret sret infl pfee sfee ctax : ℚ)
    (mode : String) (h : ra ≤ ca) :
    (ProvidentInputs.mk ca ra lifeExp ac cap pret sret infl pfee sfee ctax
        mode).annual_contribution = ac ∧
    (calculate_comparison_for_starting_age ca
      (ProvidentInputs.mk ca ra lifeExp ac cap pret sret infl pfee sfee ctax
        mode)).investment_years = 0 ∧
    (calculate_comparison_for_starting_age ca
      (ProvidentInputs.mk ca ra lifeExp ac cap pret sret infl pfee sfee ctax
        mode)).provident_net = 0 ∧
    (calculate_comparison_for_starting_age ca
      (ProvidentInputs.mk ca ra lifeExp ac cap pret sret infl pfee sfee ctax
        mode)).personal_net = 0 := by
  have hy : (ProvidentInputs.mk ca ra lifeExp ac cap pret sret infl pfee sfee ctax
      mode).retirement_age - ca ≤ 0 := by
    dsimp only
    omega
  unfold calculate_comparison_for_starting_age
  rw [if_pos hy]
  exact ⟨rfl, rfl, rfl, rfl⟩

/-- Witness for the amended C8: a start age of 70 with retirement age 60
and a negative contribution constructs fine and yields the zero result. -/
theorem inputs_not_validated_witness :
    (ProvidentInputs.mk 70 60 90 (-1000) 83641 0 0 0 0 0 (1/4)
        "lump_sum").annual_contribution = -1000 ∧
    (calculate_comparison_for_starting_age 70
      (ProvidentInputs.mk 70 60 90 (-1000) 83641 0 0 0 0 0 (1/4)
        "lump_sum")).investment_years = 0 ∧
    (calculate_comparison_for_starting_age 70
      (ProvidentInputs.mk 70 60 90 (-1000) 83641 0 0 0 0 0 (1/4)
        "lump_sum")).provident_net = 0 ∧
    (calculate_comparison_for_starting_age 70
      (ProvidentInputs.mk 70 60 90 (-1000) 83641 0 0 0 0 0 (1/4)
        "lump_sum")).personal_net = 0 :=
  inputs_not_validated 70 60 90 (-1000) 83641 0 0 0 0 0 (1/4) "lump_sum" (by norm_num)
